import Mathlib

set_option autoImplicit false
set_option linter.unusedVariables false

/-!
Verification of the stt-proxy request-forwarding core.

The development shallowly embeds the parts of the repository the claims
touch: JSON-like values, the error normalizer
(src/middleware/errorHandler.js), the upstream proxy client
(src/services/proxyService.js), the audio artifact store
(src/services/audioService.js), the upload middleware
(src/middleware/upload.js) and the request handlers (the controllers).
JS strings are Lean strings, JS numbers are integers, byte buffers are
lists of naturals, and the two effectful resources (the clock, the uuid
generator, the filesystem, the outbound HTTP call) are passed in as
explicit arguments so every function is pure and executable.
-/

namespace STTProxy

/-- JSON-like values carried in request and response bodies. JS numbers
are modelled as integers, which covers every value the proxy itself
constructs. -/
inductive JVal where
  | str (s : String)
  | num (n : Int)
  | boolean (b : Bool)
  | null
  | obj (fields : List (String × JVal))
  | arr (elems : List JVal)

/-- A JS object, as an association list of fields. JS objects keep one
binding per key, so lookup returns the first binding and writes overwrite
in place. -/
abbrev JObject := List (String × JVal)

/-- Property lookup on a JS object: the binding of the key, none when the
key is absent (undefined). -/
def jlookup (o : JObject) (k : String) : Option JVal :=
  match o with
  | [] => none
  | (k1, v1) :: rest => if k1 = k then some v1 else jlookup rest k

/-- Property write on a JS object: overwrite the existing binding in
place, or append a new one. -/
def setKey (o : JObject) (k : String) (v : JVal) : JObject :=
  match o with
  | [] => [(k, v)]
  | (k1, v1) :: rest => if k1 = k then (k, v) :: rest else (k1, v1) :: setKey rest k v

/-- Models Object.assign(base, updates): every field of updates is written
onto base, left to right. -/
def objAssign (base : JObject) (updates : JObject) : JObject :=
  updates.foldl (fun acc kv => setKey acc kv.1 kv.2) base

/-- JS truthiness of a JSON value. -/
def JVal.truthy : JVal → Bool
  | .str s => s ≠ ""
  | .num n => n ≠ 0
  | .boolean b => b
  | .null => false
  | .obj _ => true
  | .arr _ => true

/-- JS String(...) coercion of a JSON value, as the Error constructor
applies to its argument. -/
def JVal.display : JVal → String
  | .str s => s
  | .num n => toString n
  | .boolean b => if b then "true" else "false"
  | .null => "null"
  | .obj _ => "[object Object]"
  | .arr _ => ""

/-- JS a || b on an optional numeric field: undefined and 0 are falsy. -/
def jsOrNat (a : Option Nat) (b : Nat) : Nat :=
  match a with
  | none => b
  | some 0 => b
  | some n => n

/-- JS a || b on strings: the empty string is falsy. -/
def strOr (a b : String) : String := if a = "" then b else a

/-- JS a || b where a is an optional string field (undefined or a
string). -/
def jsOrStr (a : Option String) (b : String) : String :=
  match a with
  | none => b
  | some s => strOr s b

/-- JS a || null on an optional string field. -/
def jsOrNullStr (a : Option String) : Option String :=
  match a with
  | none => none
  | some s => if s = "" then none else some s

/-- The whitespace class String.prototype.trim strips. -/
def isJsWhitespace (c : Char) : Bool :=
  c == ' ' || c == '\t' || c == '\n' || c == '\r' || c == '\x0b' || c == '\x0c' || c == ' '

/-- Models text.trim(). -/
def jsTrim (s : String) : String :=
  String.mk (((s.data.dropWhile isJsWhitespace).reverse.dropWhile isJsWhitespace).reverse)

/-- Models s.substring(0, n) and s.slice(0, n). -/
def jsSubstring (s : String) (n : Nat) : String :=
  String.mk (s.data.take n)

/-- Models s.startsWith(p). -/
def jsStartsWith (s p : String) : Bool :=
  s.data.take p.data.length == p.data

/-- Models s.toLowerCase() on the ASCII strings the proxy handles. -/
def jsToLower (s : String) : String :=
  String.mk (s.data.map Char.toLower)

/-- Models path.join(dir, name) for a directory and a plain filename. -/
def pathJoin (dir name : String) : String :=
  if dir.data.getLast? = some '/' then dir ++ name else dir ++ "/" ++ name

/-- An HTTP response as the proxy sends it: res.status(code).json(body). -/
structure HttpResponse where
  status : Nat
  body : JObject

/-- The duck-typed error shape the proxy throws and normalizes: an Error
object with an optional numeric statusCode, its message, and an optional
data payload attached verbatim (none models an absent payload). -/
structure JsError where
  statusCode : Option Nat
  message : String
  data : Option JVal

/-- Fields Object.assign copies from an array: its own enumerable
properties are the element indices. -/
def arrayFields (xs : List JVal) : JObject :=
  (List.range xs.length).zip xs |>.map (fun p => (toString p.1, p.2))

/-- Fields the error normalizer merges from err.data: those of an object,
the indexed elements of an array, nothing for a non-object or absent
payload (data and typeof data checks in errorHandler). -/
def mergedFields (err : JsError) : JObject :=
  match err.data with
  | some (.obj d) => d
  | some (.arr xs) => arrayFields xs
  | _ => []

/-- Embeds errorHandler of src/middleware/errorHandler.js: statusCode
defaults to 500, message defaults to Internal server error, the error
field classifies 5xx against the rest, and an object payload is merged
onto the envelope at the top level. -/
def errorHandler (err : JsError) : HttpResponse :=
  let statusCode := jsOrNat err.statusCode 500
  let message := strOr err.message "Internal server error"
  let base : JObject :=
    [("error", .str (if 500 ≤ statusCode then "Internal server error" else "Request error")),
     ("detail", .str message)]
  let body :=
    match err.data with
    | some (.obj d) => objAssign base d
    | some (.arr xs) => objAssign base (arrayFields xs)
    | _ => base
  { status := statusCode, body := body }

/-- An upstream HTTP error response as axios reports it. -/
structure AxiosResponse where
  status : Nat
  data : JVal

/-- An axios failure: response is set when the backend answered with an
error status; request is true when the outbound request was sent. -/
structure AxiosError where
  response : Option AxiosResponse
  request : Bool
  message : String

/-- Property lookup on an arbitrary JSON value, undefined on a
non-object. -/
def jlookupV (v : JVal) (k : String) : Option JVal :=
  match v with
  | .obj fields => jlookup fields k
  | _ => none

/-- First truthy value of an optional field, as a JS or-chain reads it. -/
def truthyMsg (v : Option JVal) : Option String :=
  match v with
  | some x => if x.truthy then some x.display else none
  | none => none

namespace ProxyService

/-- Embeds ProxyService.handleError of src/services/proxyService.js: the
three-way translation of an axios failure — backend responded with an
error status, request sent but no response received, failure before the
request went out. -/
def handleError (e : AxiosError) : JsError :=
  match e.response with
  | some r =>
      { statusCode := some r.status
      , message :=
          match truthyMsg (jlookupV r.data "detail") with
          | some m => m
          | none =>
            match truthyMsg (jlookupV r.data "error") with
            | some m => m
            | none => e.message
      , data := some r.data }
  | none =>
      if e.request then
        { statusCode := some 503, message := "Python backend is not reachable", data := none }
      else
        { statusCode := some 500, message := strOr e.message "Internal server error", data := none }

/-- Outcome of the one outbound HTTP call an operation makes. Success
bodies are JSON objects per the upstream contract. -/
inductive UpstreamOutcome where
  | success (body : JObject)
  | failure (e : AxiosError)

/-- The transcription parameters the transcribe controller assembles and
passes to ProxyService.transcribe. -/
structure TranscribeParams where
  language : String
  enable_word_timestamps : Bool
  enable_diarization : Bool

/-- Query string pairs ProxyService.transcribe appends to the backend
url: language only when truthy, each flag whenever defined (the
controller always defines both flags). -/
def transcribeQueryPairs (params : TranscribeParams) : List (String × String) :=
  (if params.language ≠ "" then [("language", params.language)] else [])
    ++ [("enable_word_timestamps", if params.enable_word_timestamps then "true" else "false")]
    ++ [("enable_diarization", if params.enable_diarization then "true" else "false")]

/-- Embeds ProxyService.healthCheck: forwards the backend health body,
translating a failure through handleError. -/
def healthCheck (outcome : UpstreamOutcome) : Except JsError JObject :=
  match outcome with
  | .success b => .ok b
  | .failure e => .error (handleError e)

/-- Embeds ProxyService.transcribe: sends the buffer as multipart form
data with the assembled query parameters, forwarding the backend body and
translating a failure through handleError. -/
def transcribe (audioBuffer : List Nat) (originalFilename : Option String)
    (mimeType : Option String) (params : TranscribeParams)
    (outcome : UpstreamOutcome) : Except JsError JObject :=
  match outcome with
  | .success b => .ok b
  | .failure e => .error (handleError e)

/-- Embeds ProxyService.translate. -/
def translate (text : String) (sourceLanguage : Option String) (targetLanguage : String)
    (outcome : UpstreamOutcome) : Except JsError JObject :=
  match outcome with
  | .success b => .ok b
  | .failure e => .error (handleError e)

/-- Embeds ProxyService.detectLanguage. -/
def detectLanguage (text : String) (outcome : UpstreamOutcome) : Except JsError JObject :=
  match outcome with
  | .success b => .ok b
  | .failure e => .error (handleError e)

end ProxyService

/-- Replace the first occurrence of a character, as s.replace(str, str)
replaces only the first match. -/
def replaceFirstChar : List Char → Char → Char → List Char
  | [], _, _ => []
  | c :: cs, a, b => if c = a then b :: cs else c :: replaceFirstChar cs a b

/-- The timestamp part of a generated filename: models new
Date().toISOString() transformed by replace of every colon and dot with a
dash, slice(0, 19), and replace of the first T with an underscore
(src/services/audioService.js line 25). The ISO instant is passed in as a
string. -/
def formatTimestamp (iso : String) : String :=
  String.mk
    (replaceFirstChar
      ((iso.data.map fun c => if c = ':' ∨ c = '.' then '-' else c).take 19) 'T' '_')

/-- The basename of a path: the part after the last slash. -/
def basenameChars (s : String) : List Char :=
  (s.data.reverse.takeWhile (fun c => c != '/')).reverse

/-- Extension of a basename, per Node path.extname: the portion from the
last dot to the end, empty when there is no dot or the only dot leads the
basename. -/
def extOfBasename (b : List Char) : List Char :=
  let tail := b.reverse.takeWhile (fun c => c != '.')
  if tail.length = b.length then []
  else if tail.length + 1 = b.length then []
  else '.' :: tail.reverse

/-- Models Node path.extname, with its special case that a basename of
exactly two dots has no extension. -/
def extname (s : String) : String :=
  let b := basenameChars s
  if b = ['.', '.'] then "" else String.mk (extOfBasename b)

/-- Hexadecimal digit as uuid v4 strings use them (lowercase). -/
def isHexChar (c : Char) : Bool :=
  decide (('0' ≤ c ∧ c ≤ '9') ∨ ('a' ≤ c ∧ c ≤ 'f'))

/-- The dash positions of the canonical 36-character uuid rendering. -/
def uuidDashIdx : List Nat := [8, 13, 18, 23]

/-- Well-formedness of a uuidv4() result: 36 characters, dashes at the
canonical positions, hexadecimal digits everywhere else. -/
def isUuidV4Like (s : String) : Bool :=
  s.data.length == 36 &&
    (List.range 36).all (fun i =>
      if i ∈ uuidDashIdx then s.data.getD i ' ' == '-' else isHexChar (s.data.getD i ' '))

/-- The audio configuration loaded at startup (config.audio). -/
structure AudioConfig where
  storageDir : String
  saveAudioFiles : Bool

/-- The server configuration loaded at startup (config.server). -/
structure ServerConfig where
  host : String
  port : Nat

/-- The storage directory contents: one entry per written file, path to
byte contents. -/
structure FsState where
  files : List (String × List Nat)

/-- Whether the one fs.writeFile a persist call performs succeeds; a
failure carries the underlying message. -/
inductive WriteOutcome where
  | ok
  | fail (msg : String)

namespace AudioService

/-- Embeds AudioService.generateFileName of src/services/audioService.js:
timestamp, underscore, the first eight characters of a fresh uuid, then
the lowercased extension of the original filename or .mp3 when it has
none. The clock and the uuid are explicit arguments. -/
def generateFileName (nowISO uuid : String) (originalFilename : Option String) : String :=
  let timestamp := formatTimestamp nowISO
  let uniqueId := jsSubstring uuid 8
  let ext := strOr (jsToLower (extname (jsOrStr originalFilename ""))) ".mp3"
  timestamp ++ "_" ++ uniqueId ++ ext

/-- Embeds AudioService.saveAudioFile: null immediately when persistence
is disabled; otherwise generate a filename, write the buffer under the
storage directory and return the filename, or rethrow a write failure
with a wrapped message. -/
def saveAudioFile (cfg : AudioConfig) (nowISO uuid : String)
    (buffer : List Nat) (originalFilename : Option String)
    (w : WriteOutcome) (fs : FsState) : Except String (Option String) × FsState :=
  if cfg.saveAudioFiles = false then (.ok none, fs)
  else
    let filename := generateFileName nowISO uuid originalFilename
    let filePath := pathJoin cfg.storageDir filename
    match w with
    | .ok => (.ok (some filename), ⟨fs.files ++ [(filePath, buffer)]⟩)
    | .fail msg => (.error ("Failed to save audio file: " ++ msg), fs)

/-- The base url derived from the configured host and port, with the
any-interface host displayed as localhost. -/
def defaultBaseUrl (sc : ServerConfig) : String :=
  if sc.host = "0.0.0.0" then "http://localhost:" ++ toString sc.port
  else "http://" ++ sc.host ++ ":" ++ toString sc.port

/-- Embeds AudioService.getAudioUrl: null for a null or empty filename;
otherwise the base url (given, or derived from the configuration), with a
trailing slash stripped, then /audio/ and the filename. -/
def getAudioUrl (sc : ServerConfig) (filename : Option String)
    (baseUrl : Option String) : Option String :=
  match filename with
  | none => none
  | some fn =>
    if fn = "" then none
    else
      let base :=
        match baseUrl with
        | none => defaultBaseUrl sc
        | some b => if b = "" then defaultBaseUrl sc else b
      let url := if base.data.getLast? = some '/' then String.mk base.data.dropLast else base
      some (url ++ "/audio/" ++ fn)

/-- A stat record of a directory entry, as fs.stat reports it. -/
structure FileStat where
  size : Nat
  createdAt : Nat
  modifiedAt : Nat
  isFile : Bool

/-- The stat view of the filesystem: path to stat record for every
existing entry. -/
structure FsMeta where
  entries : List (String × FileStat)

/-- Stat of a path over a list of entries. -/
def lookupStatList : List (String × FileStat) → String → Option FileStat
  | [], _ => none
  | (q, st) :: rest, p => if q = p then some st else lookupStatList rest p

/-- Stat of a path: the record for an existing entry, none when the path
does not exist. -/
def lookupStat (fsm : FsMeta) (p : String) : Option FileStat :=
  lookupStatList fsm.entries p

/-- The metadata record for one stored recording. -/
structure RecordMeta where
  filename : String
  size : Nat
  createdAt : Nat
  modifiedAt : Nat

/-- Modelled from the spec: AudioService.getRecordingMetadata is called
by src/controllers/recordingsController.js but its definition is not
among the staged source files. Spec section 4.1: getMetadata(filename)
returns a metadata record, or null — not an error — when the file does
not exist or is not a regular file. -/
def getRecordingMetadata (cfg : AudioConfig) (fsm : FsMeta)
    (filename : String) : Except JsError (Option RecordMeta) :=
  match lookupStat fsm (pathJoin cfg.storageDir filename) with
  | some st =>
      if st.isFile then
        .ok (some { filename := filename, size := st.size
                  , createdAt := st.createdAt, modifiedAt := st.modifiedAt })
      else .ok none
  | none => .ok none

/-- Embeds AudioService.getAudioFilePath: the resolved path when
fs.access succeeds, null when the file is missing. -/
def getAudioFilePath (cfg : AudioConfig) (fsm : FsMeta) (filename : String) : Option String :=
  let filePath := pathJoin cfg.storageDir filename
  match lookupStat fsm filePath with
  | some _ => some filePath
  | none => none

end AudioService

/-- An uploaded file as multer memory storage hands it to the handler. -/
structure UploadedFile where
  buffer : List Nat
  originalname : Option String
  mimetype : Option String

/-- The transcribe query parameters as express parses them: a string when
the parameter occurs in the query, none when it is absent. -/
structure TranscribeQuery where
  language : Option String
  enable_word_timestamps : Option String
  enable_diarization : Option String

/-- Embeds the parameter assembly of src/controllers/transcribeController.js
lines 63 to 71: language falls back to auto through JS or, each flag is
the literal string comparison with true when the parameter is defined and
its documented default otherwise. -/
def parseTranscribeParams (q : TranscribeQuery) : ProxyService.TranscribeParams :=
  { language := jsOrStr q.language "auto"
  , enable_word_timestamps :=
      match q.enable_word_timestamps with
      | some s => s == "true"
      | none => true
  , enable_diarization :=
      match q.enable_diarization with
      | some s => s == "true"
      | none => false }

/-- The 400 body both text handlers short-circuit with. -/
def badRequestText : HttpResponse :=
  { status := 400
  , body := [("error", .str "Bad Request"),
             ("detail", .str "Text field is required and cannot be empty")] }

/-- The JS validation of the text field in the translate and
detect-language controllers: text falsy, not a string, or trimmed
empty. A non-string body field is outside the model, which covers absent
and string values. -/
def textInvalid : Option String → Bool
  | none => true
  | some t => (t == "") || ((jsTrim t).length == 0)

/-- The translate request body. -/
structure TranslateBody where
  text : Option String
  source_language : Option String
  target_language : Option String

/-- Embeds translate of src/controllers/translateController.js: reject
invalid text with 400 before any upstream interaction, otherwise forward
to ProxyService.translate and either relay the body or normalize the
failure. The boolean records whether the upstream client was invoked. -/
def translateHandler (body : TranslateBody)
    (outcome : ProxyService.UpstreamOutcome) : HttpResponse × Bool :=
  if textInvalid body.text then (badRequestText, false)
  else
    match ProxyService.translate (body.text.getD "") (jsOrNullStr body.source_language)
        (jsOrStr body.target_language "en") outcome with
    | .ok b => ({ status := 200, body := b }, true)
    | .error e => (errorHandler e, true)

/-- Embeds detectLanguage of
src/controllers/languageDetectionController.js, same shape as the
translate handler. -/
def detectLanguageHandler (text : Option String)
    (outcome : ProxyService.UpstreamOutcome) : HttpResponse × Bool :=
  if textInvalid text then (badRequestText, false)
  else
    match ProxyService.detectLanguage (text.getD "") outcome with
    | .ok b => ({ status := 200, body := b }, true)
    | .error e => (errorHandler e, true)

/-- The effects of one transcribe request, in order: the persist attempt
and the outbound call with its assembled parameters. -/
inductive TrEvent where
  | saveAttempt
  | upstreamCall (params : ProxyService.TranscribeParams)

/-- A transcribe request as the handler reads it. -/
structure TranscribeRequest where
  file : Option UploadedFile
  query : TranscribeQuery
  protocol : String
  host : String

/-- Embeds transcribe of src/controllers/transcribeController.js: 400
when no file was uploaded; otherwise persist best-effort (a persist
failure is caught and leaves the saved filename null), forward to the
backend, and answer the backend body extended with audio_file_url, or
normalize the forwarded failure. Returns the response, the resulting
storage state, and the ordered effect trace. -/
def transcribeHandler (cfg : AudioConfig) (sc : ServerConfig) (req : TranscribeRequest)
    (nowISO uuid : String) (w : WriteOutcome) (outcome : ProxyService.UpstreamOutcome)
    (fs : FsState) : HttpResponse × FsState × List TrEvent :=
  match req.file with
  | none =>
      ({ status := 400
       , body := [("error", .str "Bad Request"), ("detail", .str "Audio file is required")] },
       fs, [])
  | some f =>
      let audioBuffer := f.buffer
      let originalFilename := jsOrStr f.originalname "audio"
      let params := parseTranscribeParams req.query
      let saved := AudioService.saveAudioFile cfg nowISO uuid audioBuffer
        (some originalFilename) w fs
      let savedFilename := match saved.1 with
        | .ok v => v
        | .error _ => none
      let fs1 := saved.2
      match ProxyService.transcribe audioBuffer (some originalFilename) f.mimetype
          params outcome with
      | .error e => (errorHandler e, fs1, [.saveAttempt, .upstreamCall params])
      | .ok result =>
          let baseUrl := req.protocol ++ "://" ++ req.host
          let audioFileUrl := match savedFilename with
            | some fn => AudioService.getAudioUrl sc (some fn) (some baseUrl)
            | none => none
          let urlVal := match audioFileUrl with
            | some u => JVal.str u
            | none => JVal.null
          ({ status := 200, body := setKey result "audio_file_url" urlVal }, fs1,
           [.saveAttempt, .upstreamCall params])

/-- The allow-list of src/middleware/upload.js. -/
def allowedMimeTypes : List String :=
  ["audio/wav", "audio/wave", "audio/x-wav",
   "audio/mpeg", "audio/mp3",
   "audio/mp4", "audio/m4a",
   "audio/aac",
   "audio/flac",
   "audio/ogg", "audio/vorbis", "audio/opus",
   "audio/webm",
   "video/webm", "video/mp4",
   "audio/aiff", "audio/x-aiff",
   "audio/amr",
   "application/octet-stream"]

/-- Embeds fileFilter of src/middleware/upload.js: accept when the
declared type is falsy, in the allow-list, or any audio type. -/
def fileFilterAccepts (mimetype : Option String) : Bool :=
  match mimetype with
  | none => true
  | some m => (m == "") || allowedMimeTypes.contains m || jsStartsWith m "audio/"

/-- The plain Error the file filter rejects with; it carries no
statusCode. -/
def unsupportedTypeError (m : String) : JsError :=
  { statusCode := none
  , message := "Unsupported file type: " ++ m ++ ". Supported types: "
      ++ String.intercalate ", " allowedMimeTypes
  , data := none }

/-- What the upload middleware does with the request: pass it on to the
handler, or answer directly. -/
inductive UploadResult where
  | proceed (file : Option UploadedFile)
  | respond (r : HttpResponse)

/-- Embeds uploadMiddleware of src/middleware/upload.js: a file filter
rejection is a plain Error forwarded through next to the error
normalizer; the multer size limit answers 400 directly; everything else
proceeds. -/
def uploadMiddleware (maxFileSizeMB : Nat) (file : Option UploadedFile) : UploadResult :=
  match file with
  | none => .proceed none
  | some f =>
      if fileFilterAccepts f.mimetype then
        if f.buffer.length > maxFileSizeMB * 1024 * 1024 then
          .respond { status := 400
                   , body := [("error", .str "Bad Request"),
                              ("detail", .str ("File size exceeds maximum allowed size of "
                                  ++ toString maxFileSizeMB ++ " MB"))] }
        else .proceed (some f)
      else
        .respond (errorHandler (unsupportedTypeError (jsOrStr f.mimetype "")))

/-- The transcribe route of src/routes/index.js: the upload middleware
runs first and the transcribe handler only when it proceeds. -/
def transcribeRoute (cfg : AudioConfig) (sc : ServerConfig) (maxFileSizeMB : Nat)
    (rawFile : Option UploadedFile) (q : TranscribeQuery) (protocol host : String)
    (nowISO uuid : String) (w : WriteOutcome) (outcome : ProxyService.UpstreamOutcome)
    (fs : FsState) : HttpResponse × FsState × List TrEvent :=
  match uploadMiddleware maxFileSizeMB rawFile with
  | .respond r => (r, fs, [])
  | .proceed file =>
      transcribeHandler cfg sc
        { file := file, query := q, protocol := protocol, host := host }
        nowISO uuid w outcome fs

/-- Embeds getRecording of src/controllers/recordingsController.js:
400 for a missing filename parameter, 404 when the metadata lookup
returns null, 500 through the normalizer when it fails, otherwise the
record with its urls. -/
def getRecording (cfg : AudioConfig) (sc : ServerConfig) (fsm : AudioService.FsMeta)
    (filename : Option String) (protocol host : String) : HttpResponse :=
  let missing : HttpResponse :=
    { status := 400
    , body := [("error", .str "Bad Request"),
               ("detail", .str "Filename parameter is required")] }
  match filename with
  | none => missing
  | some fn =>
    if fn = "" then missing
    else
      match AudioService.getRecordingMetadata cfg fsm fn with
      | .error e => errorHandler e
      | .ok none =>
          { status := 404
          , body := [("error", .str "Not Found"),
                     ("detail", .str ("Recording " ++ fn ++ " not found"))] }
      | .ok (some m) =>
          let baseUrl := protocol ++ "://" ++ host
          let url := AudioService.getAudioUrl sc (some fn) (some baseUrl)
          let urlVal := match url with
            | some u => JVal.str u
            | none => JVal.null
          { status := 200
          , body := [("filename", .str m.filename), ("size", .num (Int.ofNat m.size)),
                     ("createdAt", .num (Int.ofNat m.createdAt)),
                     ("modifiedAt", .num (Int.ofNat m.modifiedAt)),
                     ("url", urlVal), ("downloadUrl", urlVal)] }

/-- The normalized error every operation fails with when the backend is
unreachable. -/
def unreachableError : JsError :=
  { statusCode := some 503, message := "Python backend is not reachable", data := none }

/-- Claim C1 as the spec states it, at one failure: the error field
classifies by the status code (absent defaulting to 500), detail equals
the message of the failure, and the fields of a structured payload with
distinct keys are merged at the top level of the body. -/
def c1Statement (err : JsError) : Prop :=
  jlookup (errorHandler err).body "error"
      = some (.str (if 500 ≤ err.statusCode.getD 500
                    then "Internal server error" else "Request error"))
  ∧ jlookup (errorHandler err).body "detail" = some (.str err.message)
  ∧ (((mergedFields err).map Prod.fst).Nodup →
      ∀ k v, (k, v) ∈ mergedFields err → jlookup (errorHandler err).body k = some v)

/-- The failure refuting claim C1: status 400 with an empty message. -/
def c1Failure : JsError := { statusCode := some 400, message := "", data := none }

/-- Claim C5 as the spec states it, at one query: language equals the
parameter whenever present and auto when absent; each flag is the literal
comparison with true when present and its documented default when
absent. -/
def c5Statement (q : TranscribeQuery) : Prop :=
  (∀ l, q.language = some l → (parseTranscribeParams q).language = l)
  ∧ (q.language = none → (parseTranscribeParams q).language = "auto")
  ∧ (∀ s, q.enable_word_timestamps = some s →
      (parseTranscribeParams q).enable_word_timestamps = (s == "true"))
  ∧ (q.enable_word_timestamps = none →
      (parseTranscribeParams q).enable_word_timestamps = true)
  ∧ (∀ s, q.enable_diarization = some s →
      (parseTranscribeParams q).enable_diarization = (s == "true"))
  ∧ (q.enable_diarization = none → (parseTranscribeParams q).enable_diarization = false)

/-- The query refuting claim C5: a language parameter present but
empty. -/
def c5Query : TranscribeQuery :=
  { language := some "", enable_word_timestamps := none, enable_diarization := none }

/-- Claim C8 as the spec states it: every upload whose declared content
type is outside the accepted set (the allow-list, whose last element is
the generic binary fallback) is answered with status 400 before the
transcribe handler runs. -/
def c8Statement : Prop :=
  ∀ (maxFileSizeMB : Nat) (f : UploadedFile) (m : String),
    f.mimetype = some m → m ∉ allowedMimeTypes →
    ∃ r, uploadMiddleware maxFileSizeMB (some f) = .respond r ∧ r.status = 400

/-- The upload refuting claim C8: a declared type of text/plain. -/
def c8File : UploadedFile :=
  { buffer := [], originalname := some "notes.txt", mimetype := some "text/plain" }

/-! ## Helper lemmas -/

theorem jlookup_setKey_self (o : JObject) (k : String) (v : JVal) :
    jlookup (setKey o k v) k = some v := by
  induction o with
  | nil => simp [setKey, jlookup]
  | cons kv rest ih =>
      obtain ⟨k1, v1⟩ := kv
      by_cases h : k1 = k
      · simp [setKey, h, jlookup]
      · simp [setKey, h, jlookup, ih]

theorem jlookup_setKey_ne (o : JObject) (k k1 : String) (v : JVal) (h : k1 ≠ k) :
    jlookup (setKey o k v) k1 = jlookup o k1 := by
  induction o with
  | nil => simp [setKey, jlookup, Ne.symm h]
  | cons kv rest ih =>
      obtain ⟨k2, v2⟩ := kv
      by_cases h2 : k2 = k
      · subst h2
        simp [setKey, jlookup, Ne.symm h]
      · simp [setKey, h2, jlookup, ih]

theorem jlookup_objAssign_not_mem (base d : JObject) (k : String)
    (h : k ∉ d.map Prod.fst) :
    jlookup (objAssign base d) k = jlookup base k := by
  induction d generalizing base with
  | nil => rfl
  | cons kv rest ih =>
      obtain ⟨k1, v1⟩ := kv
      simp only [List.map_cons, List.mem_cons, not_or] at h
      have step : objAssign base ((k1, v1) :: rest) = objAssign (setKey base k1 v1) rest := rfl
      rw [step, ih _ h.2]
      exact jlookup_setKey_ne _ _ _ _ h.1

theorem jlookup_objAssign_mem (base d : JObject) (k : String) (v : JVal)
    (hnd : (d.map Prod.fst).Nodup) (h : (k, v) ∈ d) :
    jlookup (objAssign base d) k = some v := by
  induction d generalizing base with
  | nil => cases h
  | cons kv rest ih =>
      obtain ⟨k1, v1⟩ := kv
      have step : objAssign base ((k1, v1) :: rest) = objAssign (setKey base k1 v1) rest := rfl
      rw [step]
      simp only [List.map_cons, List.nodup_cons] at hnd
      rcases List.mem_cons.mp h with heq | hmem
      · obtain ⟨rfl, rfl⟩ := Prod.mk.injEq .. |>.mp heq.symm
        rw [jlookup_objAssign_not_mem _ _ _ hnd.1]
        exact jlookup_setKey_self _ _ _
      · exact ih _ hnd.2 hmem

theorem strData_append (a b : String) : (a ++ b).data = a.data ++ b.data := rfl

theorem strMk_length (l : List Char) : (String.mk l).length = l.length := rfl

theorem strData_empty_iff (s : String) : s.data = [] ↔ s = "" := by
  constructor
  · intro h
    cases s
    simp_all
  · intro h
    subst h
    rfl

theorem jsToLower_empty_iff (s : String) : jsToLower s = "" ↔ s = "" := by
  constructor
  · intro h
    have hd := congrArg String.data h
    simp only [jsToLower] at hd
    rw [← strData_empty_iff]
    simpa using hd
  · intro h
    subst h
    rfl

theorem take_all_of_getD (P : Char → Bool) (l : List Char) (n : Nat)
    (h : ∀ i, i < n → i < l.length → P (l.getD i ' ') = true) :
    ∀ c ∈ l.take n, P c = true := by
  induction l generalizing n with
  | nil =>
      intro c hc
      simp at hc
  | cons x xs ih =>
      intro c hc
      cases n with
      | zero => simp at hc
      | succ m =>
          rcases List.mem_cons.mp (by simpa using hc) with rfl | hc2
          · have := h 0 (Nat.succ_pos m) (by simp)
            simpa using this
          · refine ih m (fun i hi hlen => ?_) c hc2
            have := h (i + 1) (Nat.succ_lt_succ hi) (by simp; omega)
            simpa using this

theorem uuid_take8_hex (s : String) (h : isUuidV4Like s = true) :
    ((jsSubstring s 8).data.all isHexChar = true) ∧ (jsSubstring s 8).length = 8 := by
  simp only [isUuidV4Like, Bool.and_eq_true, beq_iff_eq, List.all_eq_true] at h
  obtain ⟨hlen, hall⟩ := h
  constructor
  · rw [List.all_eq_true]
    intro c hc
    refine take_all_of_getD isHexChar s.data 8 (fun i hi hlen2 => ?_) c hc
    have h36 : i < 36 := by omega
    have hif := hall i (List.mem_range.mpr h36)
    have hni : i ∉ uuidDashIdx := by
      intro hmem
      simp only [uuidDashIdx, List.mem_cons, List.not_mem_nil, or_false] at hmem
      rcases hmem with rfl | rfl | rfl | rfl <;> omega
    simpa [hni] using hif
  · rw [show (jsSubstring s 8).length = (s.data.take 8).length from rfl,
      List.length_take, hlen]
    decide

theorem formatTimestamp_congr (iso1 iso2 : String)
    (h : iso1.data.take 19 = iso2.data.take 19) :
    formatTimestamp iso1 = formatTimestamp iso2 := by
  simp only [formatTimestamp]
  rw [← List.map_take, ← List.map_take, h]

theorem generateFileName_inj (iso1 iso2 uuid1 uuid2 : String) (o1 o2 : Option String)
    (hts : iso1.data.take 19 = iso2.data.take 19)
    (hl1 : 8 ≤ uuid1.data.length) (hl2 : 8 ≤ uuid2.data.length)
    (hne : jsSubstring uuid1 8 ≠ jsSubstring uuid2 8) :
    AudioService.generateFileName iso1 uuid1 o1 ≠ AudioService.generateFileName iso2 uuid2 o2 := by
  intro h
  apply hne
  have hts2 : formatTimestamp iso1 = formatTimestamp iso2 := formatTimestamp_congr _ _ hts
  have hd := congrArg String.data h
  simp only [AudioService.generateFileName, strData_append, List.append_assoc] at hd
  rw [congrArg String.data hts2] at hd
  have hd2 := List.append_cancel_left hd
  have hd3 := List.append_cancel_left hd2
  have hlen : (jsSubstring uuid1 8).data.length = (jsSubstring uuid2 8).data.length := by
    show (uuid1.data.take 8).length = (uuid2.data.take 8).length
    rw [List.length_take, List.length_take]
    omega
  have := List.append_inj hd3 hlen
  have hdata : (jsSubstring uuid1 8).data = (jsSubstring uuid2 8).data := this.1
  cases heq1 : jsSubstring uuid1 8
  cases heq2 : jsSubstring uuid2 8
  rw [heq1, heq2] at hdata
  simp at hdata
  rw [hdata]

theorem generateFileName_ne_empty (nowISO uuid : String) (o : Option String) :
    AudioService.generateFileName nowISO uuid o ≠ "" := by
  intro h
  have hd := congrArg String.data h
  simp [AudioService.generateFileName, strData_append] at hd

theorem strAppend_assoc (a b c : String) : (a ++ b) ++ c = a ++ (b ++ c) := by
  cases a with
  | mk x =>
      cases b with
      | mk y =>
          cases c with
          | mk z => exact congrArg String.mk (List.append_assoc x y z)

theorem uuid_data_length (s : String) (h : isUuidV4Like s = true) : s.data.length = 36 := by
  simp only [isUuidV4Like, Bool.and_eq_true, beq_iff_eq] at h
  exact h.1

theorem errorHandler_body_eq (err : JsError) :
    (errorHandler err).body
      = objAssign
          [("error", .str (if 500 ≤ jsOrNat err.statusCode 500
                           then "Internal server error" else "Request error")),
           ("detail", .str (strOr err.message "Internal server error"))]
          (mergedFields err) := by
  obtain ⟨sc, msg, d⟩ := err
  cases d with
  | none => rfl
  | some v => cases v <;> rfl

theorem errorHandler_status_eq (err : JsError)
    (hpos : ∀ s, err.statusCode = some s → 0 < s) :
    (errorHandler err).status = err.statusCode.getD 500 := by
  obtain ⟨sc, msg, d⟩ := err
  cases sc with
  | none => rfl
  | some s =>
      cases s with
      | zero => exact absurd (hpos 0 rfl) (by omega)
      | succ n => rfl

/-! ## Claim theorems -/

/-- Claim C2: for each of the four upstream operations, a failure where
the outbound request was sent but no response was received is translated
to a normalized error with status code 503 and the fixed message that the
Python backend is not reachable, independent of the operation. -/
theorem backend_unreachable_503
    (e : AxiosError) (hresp : e.response = none) (hreq : e.request = true)
    (buf : List Nat) (fn mt : Option String) (params : ProxyService.TranscribeParams)
    (text1 text2 : String) (src : Option String) (tgt : String) :
    ProxyService.healthCheck (.failure e) = .error unreachableError
    ∧ ProxyService.transcribe buf fn mt params (.failure e) = .error unreachableError
    ∧ ProxyService.translate text1 src tgt (.failure e) = .error unreachableError
    ∧ ProxyService.detectLanguage text2 (.failure e) = .error unreachableError := by
  have h : ProxyService.handleError e = unreachableError := by
    simp [ProxyService.handleError, hresp, hreq, unreachableError]
  refine ⟨?_, ?_, ?_, ?_⟩ <;>
    simp [ProxyService.healthCheck, ProxyService.transcribe, ProxyService.translate,
      ProxyService.detectLanguage, h]

/-- Witness for claim C2: a concrete connection-refused failure, one
call per operation. -/
theorem backend_unreachable_503_witness :
    ProxyService.healthCheck (.failure ⟨none, true, "connect ECONNREFUSED 127.0.0.1:8000"⟩)
        = .error unreachableError
    ∧ ProxyService.transcribe [0, 1] (some "a.wav") (some "audio/wav")
        ⟨"auto", true, false⟩ (.failure ⟨none, true, "connect ECONNREFUSED 127.0.0.1:8000"⟩)
        = .error unreachableError
    ∧ ProxyService.translate "hello" none "en"
        (.failure ⟨none, true, "connect ECONNREFUSED 127.0.0.1:8000"⟩)
        = .error unreachableError
    ∧ ProxyService.detectLanguage "hola"
        (.failure ⟨none, true, "connect ECONNREFUSED 127.0.0.1:8000"⟩)
        = .error unreachableError :=
  backend_unreachable_503 ⟨none, true, "connect ECONNREFUSED 127.0.0.1:8000"⟩ rfl rfl
    [0, 1] (some "a.wav") (some "audio/wav") ⟨"auto", true, false⟩ "hello" "hola" none "en"

/-- Claim C3: a translate or detect-language request whose text is
missing, empty or whitespace-only is answered 400 with the fixed Bad
Request body, and the upstream client is never invoked. -/
theorem empty_text_rejected_400
    (tb : TranslateBody) (dtext : Option String)
    (o1 o2 : ProxyService.UpstreamOutcome)
    (h1 : tb.text = none ∨ ∃ t, tb.text = some t ∧ jsTrim t = "")
    (h2 : dtext = none ∨ ∃ t, dtext = some t ∧ jsTrim t = "") :
    translateHandler tb o1
        = ({ status := 400
           , body := [("error", .str "Bad Request"),
                      ("detail", .str "Text field is required and cannot be empty")] }, false)
    ∧ detectLanguageHandler dtext o2
        = ({ status := 400
           , body := [("error", .str "Bad Request"),
                      ("detail", .str "Text field is required and cannot be empty")] }, false) := by
  have hv : ∀ x : Option String, (x = none ∨ ∃ t, x = some t ∧ jsTrim t = "") →
      textInvalid x = true := by
    rintro x (rfl | ⟨t, rfl, ht⟩)
    · rfl
    · simp [textInvalid, ht]
  constructor
  · simp [translateHandler, hv tb.text h1, badRequestText]
  · simp [detectLanguageHandler, hv dtext h2, badRequestText]

/-- Witness for claim C3: a whitespace-only translate text and an absent
detect-language text. -/
theorem empty_text_rejected_400_witness :
    translateHandler ⟨some "   ", some "en", none⟩ (.success [])
        = ({ status := 400
           , body := [("error", .str "Bad Request"),
                      ("detail", .str "Text field is required and cannot be empty")] }, false)
    ∧ detectLanguageHandler none (.success [])
        = ({ status := 400
           , body := [("error", .str "Bad Request"),
                      ("detail", .str "Text field is required and cannot be empty")] }, false) :=
  empty_text_rejected_400 ⟨some "   ", some "en", none⟩ none (.success []) (.success [])
    (Or.inr ⟨"   ", rfl, by decide⟩) (Or.inl rfl)

/-- Claim C1 fails as stated: at a failure with status code 400 and an
empty message, the normalizer sets detail to Internal server error, not
to the (empty) message of the failure. -/
theorem errorHandler_detail_counterexample : ¬ c1Statement c1Failure := by
  intro h
  have h2 := h.2.1
  simp [c1Statement, c1Failure, errorHandler, jlookup, strOr, jsOrNat] at h2

/-- Claim C1 amended: for every failure whose status code, when present,
is positive and whose structured payload carries distinct keys — the
response status is the status code of the failure (absent defaulting to
500); every payload field is merged at the top level of the body; and
unless the payload itself overrides them, the error field is Internal
server error exactly when the status is at least 500 and Request error
otherwise, and detail is the message of the failure when that message is
nonempty and Internal server error when it is empty. -/
theorem errorHandler_envelope_amended (err : JsError)
    (hpos : ∀ s, err.statusCode = some s → 0 < s)
    (hnd : ((mergedFields err).map Prod.fst).Nodup) :
    (errorHandler err).status = err.statusCode.getD 500
    ∧ (∀ k v, (k, v) ∈ mergedFields err → jlookup (errorHandler err).body k = some v)
    ∧ ("error" ∉ (mergedFields err).map Prod.fst →
        jlookup (errorHandler err).body "error"
          = some (.str (if 500 ≤ err.statusCode.getD 500
                        then "Internal server error" else "Request error")))
    ∧ ("detail" ∉ (mergedFields err).map Prod.fst →
        jlookup (errorHandler err).body "detail"
          = some (.str (strOr err.message "Internal server error"))) := by
  have hst : (errorHandler err).status = err.statusCode.getD 500 :=
    errorHandler_status_eq err hpos
  have hgetD : jsOrNat err.statusCode 500 = err.statusCode.getD 500 := by
    have := hst
    simpa [errorHandler] using this
  refine ⟨hst, ?_, ?_, ?_⟩
  · intro k v hkv
    rw [errorHandler_body_eq]
    exact jlookup_objAssign_mem _ _ _ _ hnd hkv
  · intro hni
    rw [errorHandler_body_eq, jlookup_objAssign_not_mem _ _ _ hni, hgetD]
    simp [jlookup]
  · intro hni
    rw [errorHandler_body_eq, jlookup_objAssign_not_mem _ _ _ hni]
    simp [jlookup]

/-- Witness for the amended claim C1: an upstream 502 failure with a
structured payload of one field. -/
theorem errorHandler_envelope_amended_witness :
    (errorHandler ⟨some 502, "Bad gateway", some (.obj [("code", .str "E42")])⟩).status
        = (some 502 : Option Nat).getD 500
    ∧ (∀ k v, (k, v) ∈ mergedFields ⟨some 502, "Bad gateway", some (.obj [("code", .str "E42")])⟩ →
        jlookup (errorHandler ⟨some 502, "Bad gateway", some (.obj [("code", .str "E42")])⟩).body k
          = some v)
    ∧ ("error" ∉ (mergedFields
          ⟨some 502, "Bad gateway", some (.obj [("code", .str "E42")])⟩).map Prod.fst →
        jlookup (errorHandler ⟨some 502, "Bad gateway", some (.obj [("code", .str "E42")])⟩).body
            "error"
          = some (.str (if 500 ≤ (some 502 : Option Nat).getD 500
                        then "Internal server error" else "Request error")))
    ∧ ("detail" ∉ (mergedFields
          ⟨some 502, "Bad gateway", some (.obj [("code", .str "E42")])⟩).map Prod.fst →
        jlookup (errorHandler ⟨some 502, "Bad gateway", some (.obj [("code", .str "E42")])⟩).body
            "detail"
          = some (.str (strOr "Bad gateway" "Internal server error"))) :=
  errorHandler_envelope_amended ⟨some 502, "Bad gateway", some (.obj [("code", .str "E42")])⟩
    (by intro s hs; injection hs with h; omega) (by decide)

/-- Claim C5 fails as stated: a language query parameter that is present
but empty is parsed as auto, not as the (empty) parameter value. -/
theorem transcribe_params_language_counterexample : ¬ c5Statement c5Query := by
  intro h
  have h1 := h.1 "" rfl
  simp [parseTranscribeParams, c5Query, jsOrStr, strOr] at h1

/-- Claim C5 amended: the language passed upstream equals the query
parameter when it is present and nonempty, and auto when it is absent or
empty; the word-timestamps flag is the literal comparison of the
parameter with true when present and true when absent; the diarization
flag is the literal comparison when present and false when absent — each
independently — and the handler passes exactly these parameters to the
upstream call. -/
theorem transcribe_params_amended (q : TranscribeQuery) :
    (parseTranscribeParams q).language
        = (match q.language with
           | some l => if l = "" then "auto" else l
           | none => "auto")
    ∧ (parseTranscribeParams q).enable_word_timestamps
        = (match q.enable_word_timestamps with
           | some s => s == "true"
           | none => true)
    ∧ (parseTranscribeParams q).enable_diarization
        = (match q.enable_diarization with
           | some s => s == "true"
           | none => false)
    ∧ (∀ (cfg : AudioConfig) (sc : ServerConfig) (f : UploadedFile)
          (protocol host nowISO uuid : String) (w : WriteOutcome)
          (outcome : ProxyService.UpstreamOutcome) (fs : FsState),
        (transcribeHandler cfg sc ⟨some f, q, protocol, host⟩ nowISO uuid w outcome fs).2.2
          = [.saveAttempt, .upstreamCall (parseTranscribeParams q)]) := by
  refine ⟨?_, ?_, ?_, ?_⟩
  · cases hq : q.language with
    | none => simp [parseTranscribeParams, jsOrStr, hq]
    | some l => simp [parseTranscribeParams, jsOrStr, strOr, hq]
  · cases hq : q.enable_word_timestamps <;> simp [parseTranscribeParams, hq]
  · cases hq : q.enable_diarization <;> simp [parseTranscribeParams, hq]
  · intro cfg sc f protocol host nowISO uuid w outcome fs
    cases outcome with
    | success b => simp [transcribeHandler, ProxyService.transcribe]
    | failure e => simp [transcribeHandler, ProxyService.transcribe]

/-- Claim C8 fails as stated: a text/plain upload is not in the accepted
set, yet it is rejected through the error normalizer with status 500,
not 400. -/
theorem upload_reject_status_counterexample : ¬ c8Statement := by
  intro h
  obtain ⟨r, hr, hs⟩ := h 500 c8File "text/plain" rfl (by decide)
  have h0 : uploadMiddleware 500 (some c8File)
      = .respond (errorHandler (unsupportedTypeError "text/plain")) := rfl
  rw [h0] at hr
  injection hr with hr2
  rw [← hr2] at hs
  simp [errorHandler, unsupportedTypeError, jsOrNat] at hs

/-- Claim C8 amended: an upload whose declared content type is present,
nonempty, outside the allow-list and not an audio type is rejected
before the transcribe handler runs — but through the error normalizer
with status 500 and the Internal server error envelope carrying the
unsupported-type message, not with 400; the route answers exactly that
response, with no storage change and no handler effects. A type starting
with audio/ or an absent type is accepted even when it is outside the
allow-list. -/
theorem upload_reject_amended (maxFileSizeMB : Nat) (f : UploadedFile) (m : String)
    (hm : f.mimetype = some m) (hne : m ≠ "")
    (hns : m ∉ allowedMimeTypes) (hna : jsStartsWith m "audio/" = false) :
    uploadMiddleware maxFileSizeMB (some f) = .respond (errorHandler (unsupportedTypeError m))
    ∧ (errorHandler (unsupportedTypeError m)).status = 500
    ∧ jlookup (errorHandler (unsupportedTypeError m)).body "error"
        = some (.str "Internal server error")
    ∧ jlookup (errorHandler (unsupportedTypeError m)).body "detail"
        = some (.str (unsupportedTypeError m).message)
    ∧ (∀ (cfg : AudioConfig) (sc : ServerConfig) (q : TranscribeQuery)
          (protocol host nowISO uuid : String) (w : WriteOutcome)
          (outcome : ProxyService.UpstreamOutcome) (fs : FsState),
        transcribeRoute cfg sc maxFileSizeMB (some f) q protocol host nowISO uuid w outcome fs
          = (errorHandler (unsupportedTypeError m), fs, [])) := by
  have hacc : fileFilterAccepts (some m) = false := by
    simp [fileFilterAccepts, hne, hna, hns]
  have hmw : uploadMiddleware maxFileSizeMB (some f)
      = .respond (errorHandler (unsupportedTypeError m)) := by
    simp [uploadMiddleware, hm, hacc, jsOrStr, strOr, hne]
  have hmsg : (unsupportedTypeError m).message ≠ "" := by
    intro h0
    have hd := congrArg String.data h0
    simp only [unsupportedTypeError, strData_append] at hd
    rw [List.append_eq_nil, List.append_eq_nil, List.append_eq_nil] at hd
    exact absurd hd.1.1.1 (by decide)
  refine ⟨hmw, rfl, ?_, ?_, ?_⟩
  · simp [errorHandler, unsupportedTypeError, jsOrNat, jlookup]
  · simp [errorHandler, jsOrNat, jlookup, strOr, hmsg]
  · intro cfg sc q protocol host nowISO uuid w outcome fs
    simp [transcribeRoute, hmw]

/-- Witness for the amended claim C8: the concrete text/plain upload. -/
theorem upload_reject_amended_witness :
    uploadMiddleware 500 (some c8File)
        = .respond (errorHandler (unsupportedTypeError "text/plain"))
    ∧ (errorHandler (unsupportedTypeError "text/plain")).status = 500
    ∧ jlookup (errorHandler (unsupportedTypeError "text/plain")).body "error"
        = some (.str "Internal server error")
    ∧ jlookup (errorHandler (unsupportedTypeError "text/plain")).body "detail"
        = some (.str (unsupportedTypeError "text/plain").message)
    ∧ (∀ (cfg : AudioConfig) (sc : ServerConfig) (q : TranscribeQuery)
          (protocol host nowISO uuid : String) (w : WriteOutcome)
          (outcome : ProxyService.UpstreamOutcome) (fs : FsState),
        transcribeRoute cfg sc 500 (some c8File) q protocol host nowISO uuid w outcome fs
          = (errorHandler (unsupportedTypeError "text/plain"), fs, [])) :=
  upload_reject_amended 500 c8File "text/plain" rfl (by decide) (by decide) (by decide)

/-- Claim C4: with persistence enabled, when the file is present and the
persist attempt fails, the transcribe request does not fail — the
handler still forwards to the backend; on upstream success it answers
200 with every upstream field unchanged, a null audio_file_url, and the
storage state untouched. -/
theorem transcribe_persist_failure_degrades
    (cfg : AudioConfig) (sc : ServerConfig) (req : TranscribeRequest) (f : UploadedFile)
    (nowISO uuid msg : String) (result : JObject) (fs : FsState)
    (hf : req.file = some f) (hen : cfg.saveAudioFiles = true) :
    (transcribeHandler cfg sc req nowISO uuid (.fail msg) (.success result) fs).1.status = 200
    ∧ jlookup (transcribeHandler cfg sc req nowISO uuid (.fail msg) (.success result) fs).1.body
        "audio_file_url" = some .null
    ∧ (∀ k, k ≠ "audio_file_url" →
        jlookup
            (transcribeHandler cfg sc req nowISO uuid (.fail msg) (.success result) fs).1.body k
          = jlookup result k)
    ∧ (transcribeHandler cfg sc req nowISO uuid (.fail msg) (.success result) fs).2.1 = fs
    ∧ TrEvent.upstreamCall (parseTranscribeParams req.query)
        ∈ (transcribeHandler cfg sc req nowISO uuid (.fail msg) (.success result) fs).2.2 := by
  have hrun : transcribeHandler cfg sc req nowISO uuid (.fail msg) (.success result) fs
      = ({ status := 200, body := setKey result "audio_file_url" .null }, fs,
         [.saveAttempt, .upstreamCall (parseTranscribeParams req.query)]) := by
    simp [transcribeHandler, hf, AudioService.saveAudioFile, hen, ProxyService.transcribe]
  rw [hrun]
  refine ⟨rfl, jlookup_setKey_self _ _ _, ?_, rfl, by simp⟩
  intro k hk
  exact jlookup_setKey_ne _ _ _ _ hk

/-- Witness for claim C4: a concrete upload with an unwritable storage
directory and a successful upstream transcription. -/
theorem transcribe_persist_failure_degrades_witness :
    (transcribeHandler ⟨"/data/audio", true⟩ ⟨"0.0.0.0", 3000⟩
        ⟨some ⟨[1, 2, 3], some "a.wav", some "audio/wav"⟩, ⟨none, none, none⟩,
         "http", "localhost:3000"⟩
        "2024-11-24T21:26:27.123Z" "a1b2c3d4-e5f6-4a7b-8c9d-0e1f2a3b4c5d"
        (.fail "EACCES: permission denied") (.success [("text", .str "hi")])
        ⟨[]⟩).1.status = 200
    ∧ jlookup (transcribeHandler ⟨"/data/audio", true⟩ ⟨"0.0.0.0", 3000⟩
        ⟨some ⟨[1, 2, 3], some "a.wav", some "audio/wav"⟩, ⟨none, none, none⟩,
         "http", "localhost:3000"⟩
        "2024-11-24T21:26:27.123Z" "a1b2c3d4-e5f6-4a7b-8c9d-0e1f2a3b4c5d"
        (.fail "EACCES: permission denied") (.success [("text", .str "hi")])
        ⟨[]⟩).1.body "audio_file_url" = some .null
    ∧ (∀ k, k ≠ "audio_file_url" →
        jlookup (transcribeHandler ⟨"/data/audio", true⟩ ⟨"0.0.0.0", 3000⟩
            ⟨some ⟨[1, 2, 3], some "a.wav", some "audio/wav"⟩, ⟨none, none, none⟩,
             "http", "localhost:3000"⟩
            "2024-11-24T21:26:27.123Z" "a1b2c3d4-e5f6-4a7b-8c9d-0e1f2a3b4c5d"
            (.fail "EACCES: permission denied") (.success [("text", .str "hi")])
            ⟨[]⟩).1.body k
          = jlookup [("text", .str "hi")] k)
    ∧ (transcribeHandler ⟨"/data/audio", true⟩ ⟨"0.0.0.0", 3000⟩
        ⟨some ⟨[1, 2, 3], some "a.wav", some "audio/wav"⟩, ⟨none, none, none⟩,
         "http", "localhost:3000"⟩
        "2024-11-24T21:26:27.123Z" "a1b2c3d4-e5f6-4a7b-8c9d-0e1f2a3b4c5d"
        (.fail "EACCES: permission denied") (.success [("text", .str "hi")])
        ⟨[]⟩).2.1 = (⟨[]⟩ : FsState)
    ∧ TrEvent.upstreamCall (parseTranscribeParams ⟨none, none, none⟩)
        ∈ (transcribeHandler ⟨"/data/audio", true⟩ ⟨"0.0.0.0", 3000⟩
            ⟨some ⟨[1, 2, 3], some "a.wav", some "audio/wav"⟩, ⟨none, none, none⟩,
             "http", "localhost:3000"⟩
            "2024-11-24T21:26:27.123Z" "a1b2c3d4-e5f6-4a7b-8c9d-0e1f2a3b4c5d"
            (.fail "EACCES: permission denied") (.success [("text", .str "hi")])
            ⟨[]⟩).2.2 :=
  transcribe_persist_failure_degrades ⟨"/data/audio", true⟩ ⟨"0.0.0.0", 3000⟩
    ⟨some ⟨[1, 2, 3], some "a.wav", some "audio/wav"⟩, ⟨none, none, none⟩,
     "http", "localhost:3000"⟩
    ⟨[1, 2, 3], some "a.wav", some "audio/wav"⟩
    "2024-11-24T21:26:27.123Z" "a1b2c3d4-e5f6-4a7b-8c9d-0e1f2a3b4c5d"
    "EACCES: permission denied" [("text", .str "hi")] ⟨[]⟩ rfl rfl

/-- Claim C10 (implicit): with persistence enabled and a successful
write, a transcribe request whose upstream call then fails keeps the
saved artifact — the persist attempt precedes the upstream call in the
effect trace, the response is the normalized upstream failure, and
appending the one saved file is the only storage change. -/
theorem transcribe_failed_upstream_keeps_artifact
    (cfg : AudioConfig) (sc : ServerConfig) (req : TranscribeRequest) (f : UploadedFile)
    (nowISO uuid : String) (e : AxiosError) (fs : FsState)
    (hf : req.file = some f) (hen : cfg.saveAudioFiles = true) :
    transcribeHandler cfg sc req nowISO uuid .ok (.failure e) fs
      = (errorHandler (ProxyService.handleError e),
         ⟨fs.files ++ [(pathJoin cfg.storageDir
             (AudioService.generateFileName nowISO uuid (some (jsOrStr f.originalname "audio"))),
           f.buffer)]⟩,
         [.saveAttempt, .upstreamCall (parseTranscribeParams req.query)]) := by
  simp [transcribeHandler, hf, AudioService.saveAudioFile, hen, ProxyService.transcribe]

/-- Witness for claim C10: a concrete upload saved successfully, with
the upstream call refused. -/
theorem transcribe_failed_upstream_keeps_artifact_witness :
    transcribeHandler ⟨"/data/audio", true⟩ ⟨"0.0.0.0", 3000⟩
        ⟨some ⟨[9, 9], some "b.mp3", some "audio/mpeg"⟩, ⟨some "en", none, none⟩,
         "http", "localhost:3000"⟩
        "2024-11-24T21:26:27.123Z" "a1b2c3d4-e5f6-4a7b-8c9d-0e1f2a3b4c5d" .ok
        (.failure ⟨none, true, "connect ECONNREFUSED 127.0.0.1:8000"⟩) ⟨[]⟩
      = (errorHandler (ProxyService.handleError ⟨none, true, "connect ECONNREFUSED 127.0.0.1:8000"⟩),
         ⟨([] : List (String × List Nat)) ++ [(pathJoin "/data/audio"
             (AudioService.generateFileName "2024-11-24T21:26:27.123Z"
               "a1b2c3d4-e5f6-4a7b-8c9d-0e1f2a3b4c5d" (some (jsOrStr (some "b.mp3") "audio"))),
           [9, 9])]⟩,
         [.saveAttempt, .upstreamCall (parseTranscribeParams ⟨some "en", none, none⟩)]) :=
  transcribe_failed_upstream_keeps_artifact ⟨"/data/audio", true⟩ ⟨"0.0.0.0", 3000⟩
    ⟨some ⟨[9, 9], some "b.mp3", some "audio/mpeg"⟩, ⟨some "en", none, none⟩,
     "http", "localhost:3000"⟩
    ⟨[9, 9], some "b.mp3", some "audio/mpeg"⟩
    "2024-11-24T21:26:27.123Z" "a1b2c3d4-e5f6-4a7b-8c9d-0e1f2a3b4c5d"
    ⟨none, true, "connect ECONNREFUSED 127.0.0.1:8000"⟩ ⟨[]⟩ rfl rfl

/-- Claim C6: with persistence enabled and a successful write, persist
returns a filename of the shape timestamp, underscore, id, extension —
the timestamp derived from the clock at second granularity, the id the
first eight characters of the uuid and hexadecimal for a well-formed
uuid, the extension the lowercased original extension or the fixed .mp3
fallback — the buffer is written under the storage directory at that
filename, and two same-second calls whose ids differ yield distinct
filenames. -/
theorem saveAudioFile_filename_spec
    (cfg : AudioConfig) (nowISO uuid : String) (buffer : List Nat)
    (orig : Option String) (fs : FsState)
    (hen : cfg.saveAudioFiles = true) (hu : isUuidV4Like uuid = true) :
    (AudioService.saveAudioFile cfg nowISO uuid buffer orig .ok fs).1
        = .ok (some (AudioService.generateFileName nowISO uuid orig))
    ∧ (AudioService.saveAudioFile cfg nowISO uuid buffer orig .ok fs).2.files
        = fs.files
            ++ [(pathJoin cfg.storageDir (AudioService.generateFileName nowISO uuid orig),
                 buffer)]
    ∧ AudioService.generateFileName nowISO uuid orig
        = formatTimestamp nowISO ++ "_" ++ jsSubstring uuid 8
            ++ (if extname (jsOrStr orig "") = "" then ".mp3"
                else jsToLower (extname (jsOrStr orig "")))
    ∧ (jsSubstring uuid 8).length = 8
    ∧ (∀ c ∈ (jsSubstring uuid 8).data, isHexChar c = true)
    ∧ (∀ iso1 iso2 : String, iso1.data.take 19 = iso2.data.take 19 →
        formatTimestamp iso1 = formatTimestamp iso2)
    ∧ (∀ (iso2 uuid2 : String) (orig2 : Option String), isUuidV4Like uuid2 = true →
        nowISO.data.take 19 = iso2.data.take 19 →
        jsSubstring uuid 8 ≠ jsSubstring uuid2 8 →
        AudioService.generateFileName nowISO uuid orig
          ≠ AudioService.generateFileName iso2 uuid2 orig2) := by
  obtain ⟨hhex, hlen8⟩ := uuid_take8_hex uuid hu
  refine ⟨?_, ?_, ?_, hlen8, List.all_eq_true.mp hhex, formatTimestamp_congr, ?_⟩
  · simp [AudioService.saveAudioFile, hen]
  · simp [AudioService.saveAudioFile, hen]
  · by_cases he : extname (jsOrStr orig "") = ""
    · simp [AudioService.generateFileName, he, strOr, jsToLower]
    · have hl : jsToLower (extname (jsOrStr orig "")) ≠ "" :=
        fun h0 => he ((jsToLower_empty_iff _).mp h0)
      simp [AudioService.generateFileName, strOr, hl, he]
  · intro iso2 uuid2 orig2 hu2 hts hne
    exact generateFileName_inj nowISO iso2 uuid uuid2 orig orig2 hts
      (by rw [uuid_data_length uuid hu]; omega)
      (by rw [uuid_data_length uuid2 hu2]; omega) hne

/-- Witness for claim C6: a concrete enabled configuration, clock
instant, uuid and original filename. -/
theorem saveAudioFile_filename_spec_witness :
    (AudioService.saveAudioFile ⟨"/data/audio", true⟩ "2024-11-24T21:26:27.123Z"
        "a1b2c3d4-e5f6-4a7b-8c9d-0e1f2a3b4c5d" [7, 7] (some "clip.WAV") .ok ⟨[]⟩).1
        = .ok (some (AudioService.generateFileName "2024-11-24T21:26:27.123Z"
            "a1b2c3d4-e5f6-4a7b-8c9d-0e1f2a3b4c5d" (some "clip.WAV")))
    ∧ (AudioService.saveAudioFile ⟨"/data/audio", true⟩ "2024-11-24T21:26:27.123Z"
        "a1b2c3d4-e5f6-4a7b-8c9d-0e1f2a3b4c5d" [7, 7] (some "clip.WAV") .ok ⟨[]⟩).2.files
        = ([] : List (String × List Nat))
            ++ [(pathJoin "/data/audio" (AudioService.generateFileName "2024-11-24T21:26:27.123Z"
                   "a1b2c3d4-e5f6-4a7b-8c9d-0e1f2a3b4c5d" (some "clip.WAV")),
                 [7, 7])]
    ∧ AudioService.generateFileName "2024-11-24T21:26:27.123Z"
          "a1b2c3d4-e5f6-4a7b-8c9d-0e1f2a3b4c5d" (some "clip.WAV")
        = formatTimestamp "2024-11-24T21:26:27.123Z"
            ++ "_" ++ jsSubstring "a1b2c3d4-e5f6-4a7b-8c9d-0e1f2a3b4c5d" 8
            ++ (if extname (jsOrStr (some "clip.WAV") "") = "" then ".mp3"
                else jsToLower (extname (jsOrStr (some "clip.WAV") "")))
    ∧ (jsSubstring "a1b2c3d4-e5f6-4a7b-8c9d-0e1f2a3b4c5d" 8).length = 8
    ∧ (∀ c ∈ (jsSubstring "a1b2c3d4-e5f6-4a7b-8c9d-0e1f2a3b4c5d" 8).data, isHexChar c = true)
    ∧ (∀ iso1 iso2 : String, iso1.data.take 19 = iso2.data.take 19 →
        formatTimestamp iso1 = formatTimestamp iso2)
    ∧ (∀ (iso2 uuid2 : String) (orig2 : Option String), isUuidV4Like uuid2 = true →
        "2024-11-24T21:26:27.123Z".data.take 19 = iso2.data.take 19 →
        jsSubstring "a1b2c3d4-e5f6-4a7b-8c9d-0e1f2a3b4c5d" 8 ≠ jsSubstring uuid2 8 →
        AudioService.generateFileName "2024-11-24T21:26:27.123Z"
            "a1b2c3d4-e5f6-4a7b-8c9d-0e1f2a3b4c5d" (some "clip.WAV")
          ≠ AudioService.generateFileName iso2 uuid2 orig2) :=
  saveAudioFile_filename_spec ⟨"/data/audio", true⟩ "2024-11-24T21:26:27.123Z"
    "a1b2c3d4-e5f6-4a7b-8c9d-0e1f2a3b4c5d" [7, 7] (some "clip.WAV") ⟨[]⟩ rfl (by decide)

/-- Claim C7: round trip of persist and url resolution — a successful
persist with persistence enabled yields a filename whose resolved url is
some url ending in /audio/ followed by exactly that filename; with
persistence disabled persist returns null and leaves the filesystem
untouched for any write outcome; and resolving a null or empty filename
yields null. -/
theorem persist_resolveUrl_roundtrip
    (cfg : AudioConfig) (sc : ServerConfig) (nowISO uuid : String) (buffer : List Nat)
    (orig : Option String) (fs : FsState) (baseUrl : Option String) (f : String)
    (hen : cfg.saveAudioFiles = true)
    (hok : (AudioService.saveAudioFile cfg nowISO uuid buffer orig .ok fs).1 = .ok (some f)) :
    (∃ u, AudioService.getAudioUrl sc (some f) baseUrl = some u
        ∧ ∃ p, u = p ++ ("/audio/" ++ f))
    ∧ (∀ cfg2 : AudioConfig, cfg2.saveAudioFiles = false →
        ∀ (w : WriteOutcome) (fs2 : FsState),
          AudioService.saveAudioFile cfg2 nowISO uuid buffer orig w fs2 = (.ok none, fs2))
    ∧ AudioService.getAudioUrl sc none baseUrl = none
    ∧ AudioService.getAudioUrl sc (some "") baseUrl = none := by
  have hf : f = AudioService.generateFileName nowISO uuid orig := by
    simp [AudioService.saveAudioFile, hen] at hok
    exact hok.symm
  have hfne : f ≠ "" := hf ▸ generateFileName_ne_empty nowISO uuid orig
  refine ⟨?_, ?_, rfl, rfl⟩
  · simp only [AudioService.getAudioUrl, hfne, if_false, ite_false, if_neg]
    exact ⟨_, rfl, _, strAppend_assoc _ _ _⟩
  · intro cfg2 h2 w fs2
    simp [AudioService.saveAudioFile, h2]

/-- Witness for claim C7: a concrete successful persist and the
resolution of its filename. -/
theorem persist_resolveUrl_roundtrip_witness :
    (∃ u, AudioService.getAudioUrl ⟨"0.0.0.0", 3000⟩
          (some (AudioService.generateFileName "2024-11-24T21:26:27.123Z"
            "a1b2c3d4-e5f6-4a7b-8c9d-0e1f2a3b4c5d" (some "clip.WAV"))) none = some u
        ∧ ∃ p, u = p ++ ("/audio/" ++ AudioService.generateFileName "2024-11-24T21:26:27.123Z"
            "a1b2c3d4-e5f6-4a7b-8c9d-0e1f2a3b4c5d" (some "clip.WAV")))
    ∧ (∀ cfg2 : AudioConfig, cfg2.saveAudioFiles = false →
        ∀ (w : WriteOutcome) (fs2 : FsState),
          AudioService.saveAudioFile cfg2 "2024-11-24T21:26:27.123Z"
              "a1b2c3d4-e5f6-4a7b-8c9d-0e1f2a3b4c5d" [7, 7] (some "clip.WAV") w fs2
            = (.ok none, fs2))
    ∧ AudioService.getAudioUrl ⟨"0.0.0.0", 3000⟩ none none = none
    ∧ AudioService.getAudioUrl ⟨"0.0.0.0", 3000⟩ (some "") none = none :=
  persist_resolveUrl_roundtrip ⟨"/data/audio", true⟩ ⟨"0.0.0.0", 3000⟩
    "2024-11-24T21:26:27.123Z" "a1b2c3d4-e5f6-4a7b-8c9d-0e1f2a3b4c5d" [7, 7]
    (some "clip.WAV") ⟨[]⟩ none
    (AudioService.generateFileName "2024-11-24T21:26:27.123Z"
      "a1b2c3d4-e5f6-4a7b-8c9d-0e1f2a3b4c5d" (some "clip.WAV")) rfl rfl

/-- Claim C9, settled against the spec-modelled getRecordingMetadata:
for a filename that does not name an existing regular file under the
storage directory, getRecordingMetadata returns ok none — never an
error — on every call, and the recording endpoint answers 404 with the
Not Found envelope, not 500. -/
theorem getMetadata_nonexistent_null_404
    (cfg : AudioConfig) (sc : ServerConfig) (fsm : AudioService.FsMeta)
    (fn protocol host : String) (hfn : fn ≠ "")
    (habsent : ∀ st, AudioService.lookupStat fsm (pathJoin cfg.storageDir fn) = some st →
        st.isFile = false) :
    AudioService.getRecordingMetadata cfg fsm fn = .ok none
    ∧ (getRecording cfg sc fsm (some fn) protocol host).status = 404
    ∧ jlookup (getRecording cfg sc fsm (some fn) protocol host).body "error"
        = some (.str "Not Found") := by
  have hm : AudioService.getRecordingMetadata cfg fsm fn = .ok none := by
    unfold AudioService.getRecordingMetadata
    cases hst : AudioService.lookupStat fsm (pathJoin cfg.storageDir fn) with
    | none => rfl
    | some st => simp [habsent st hst]
  refine ⟨hm, ?_, ?_⟩ <;> simp [getRecording, hfn, hm, jlookup]

/-- Witness for claim C9: an empty storage directory and a concrete
filename. -/
theorem getMetadata_nonexistent_null_404_witness :
    AudioService.getRecordingMetadata ⟨"/data/audio", true⟩ ⟨[]⟩ "missing.mp3" = .ok none
    ∧ (getRecording ⟨"/data/audio", true⟩ ⟨"0.0.0.0", 3000⟩ ⟨[]⟩ (some "missing.mp3")
        "http" "localhost:3000").status = 404
    ∧ jlookup (getRecording ⟨"/data/audio", true⟩ ⟨"0.0.0.0", 3000⟩ ⟨[]⟩ (some "missing.mp3")
        "http" "localhost:3000").body "error" = some (.str "Not Found") :=
  getMetadata_nonexistent_null_404 ⟨"/data/audio", true⟩ ⟨"0.0.0.0", 3000⟩ ⟨[]⟩
    "missing.mp3" "http" "localhost:3000" (by decide)
    (fun st h => by simp [AudioService.lookupStat, AudioService.lookupStatList] at h)

end STTProxy
